import Mathlib

set_option maxHeartbeats 1000000

/-- Candidate file handle: the fields of a browser File object that the
uploader reads (name, size in bytes, content type). -/
structure CandidateFile where
  name : String
  size : Nat
  type : String
  deriving DecidableEq

/-- Props of the FileUploader component, restricted to the fields consumed by
the upload logic. In the source, acceptedFileTypes is an optional array
(null or undefined means no list was supplied), maxFileSize defaults to 5 MB
and allowMultiple defaults to false. -/
structure FileUploaderProps where
  acceptedFileTypes : Option (List String)
  url : String
  maxFileSize : Nat := 5
  allowMultiple : Bool := false
  deriving DecidableEq

/-- MB-to-bytes conversion of the maxFileSize prop
(const MAX_FILE_BYTES = maxFileSize * 1024 * 1024). -/
def MAX_FILE_BYTES (cfg : FileUploaderProps) : Nat :=
  cfg.maxFileSize * 1024 * 1024

/-- Component state: the fileProgress map, the fileStatus map, the
uploadError string and the uploadSuccess flag of the source component. -/
structure Uploader where
  fileProgress : List (String × Nat)
  fileStatus : List (String × String)
  uploadError : Option String
  uploadSuccess : Bool
  deriving DecidableEq

/-- Update of one key of a string-keyed map, with JavaScript object-spread
semantics: an existing key keeps its position and receives the new value, a
fresh key is appended at the end. -/
def setKey {α : Type} : List (String × α) → String → α → List (String × α)
  | [], k, v => [(k, v)]
  | p :: t, k, v => if p.1 == k then (k, v) :: t else p :: setKey t k v

/-- Lookup of a key in a string-keyed map (JavaScript property read). -/
def lookupKey {α : Type} : List (String × α) → String → Option α
  | [], _ => none
  | p :: t, k => if p.1 == k then some p.2 else lookupKey t k

/-- Initial component state: both maps empty, no error, no success. The
resetUploader handler of the source restores exactly this state. -/
def initUploader : Uploader :=
  { fileProgress := [], fileStatus := [], uploadError := none,
    uploadSuccess := false }

/-- The isError derived read of the source: some value of the fileStatus map
differs from the string Uploaded. -/
def isError (s : Uploader) : Bool :=
  s.fileStatus.any (fun p => p.2 != "Uploaded")

/-- The size-limit validation message, with the configured MB value
interpolated. -/
def sizeMsg (cfg : FileUploaderProps) : String :=
  "File size cannot exceed " ++ toString cfg.maxFileSize ++ " MB"

/-- The type-not-accepted validation message, listing the accepted types
joined by a comma and a space. -/
def typeMsg (l : List String) : String :=
  "File type not accepted. Accepted types: " ++ String.intercalate ", " l

/-- The size predicate of the validation loop: file.size > MAX_FILE_BYTES. -/
def sizeExceeded (cfg : FileUploaderProps) (f : CandidateFile) : Bool :=
  decide (MAX_FILE_BYTES cfg < f.size)

/-- The type guard of the validation loop:
acceptedFileTypes && !acceptedFileTypes.includes(file.type). A null or
undefined list is falsy, so no check runs; any present list (the empty
array included, since an empty array is truthy in JavaScript) gates on
membership. -/
def typeRejected (cfg : FileUploaderProps) (f : CandidateFile) : Bool :=
  match cfg.acceptedFileTypes with
  | some l => !(l.contains f.type)
  | none => false

/-- One iteration of the validation loop of fileSelectedHandler: threads the
fileErrors map and the isValid flag over one file, running the size check and
then the type check (the type check overwrites the fileErrors entry written
by the size check for the same file). -/
def checkFile (cfg : FileUploaderProps)
    (acc : List (String × String) × Bool) (f : CandidateFile) :
    List (String × String) × Bool :=
  let acc1 :=
    if sizeExceeded cfg f then (setKey acc.1 f.name (sizeMsg cfg), false)
    else acc
  match cfg.acceptedFileTypes with
  | some l =>
      if !(l.contains f.type) then (setKey acc1.1 f.name (typeMsg l), false)
      else acc1
  | none => acc1

/-- The whole validation loop: fileErrors starts empty, isValid starts true. -/
def computeFileErrors (cfg : FileUploaderProps) (files : List CandidateFile) :
    List (String × String) × Bool :=
  files.foldl (checkFile cfg) ([], true)

/-- Net validation outcome for a single file: the message left in fileErrors
for this file by its two checks (the type message wins when both fail), or
none when the file passes both predicates. -/
def fileInvalidMsg (cfg : FileUploaderProps) (f : CandidateFile) :
    Option String :=
  match cfg.acceptedFileTypes with
  | some l =>
      if !(l.contains f.type) then some (typeMsg l)
      else if sizeExceeded cfg f then some (sizeMsg cfg) else none
  | none => if sizeExceeded cfg f then some (sizeMsg cfg) else none

/-- The fileSelectedHandler of the source: clears uploadError, validates every
file, and either records the fileErrors map as the new fileStatus (invalid
batch, nothing dispatched) or initializes fileProgress to 0 for each file and
dispatches one transfer per file. The second component of the result is the
list of files handed to fileUploadHandler. -/
def fileSelectedHandler (cfg : FileUploaderProps) (s : Uploader)
    (files : List CandidateFile) : Uploader × List CandidateFile :=
  let s0 : Uploader := { s with uploadError := none }
  let r := computeFileErrors cfg files
  if r.2 then
    (files.foldl
      (fun st f => { st with fileProgress := setKey st.fileProgress f.name 0 })
      s0, files)
  else
    ({ s0 with fileStatus := r.1 }, [])

/-- Rounded per-file percentage Math.round((loaded / total) * 100), modelled
as exact round-half-up of the rational 100 * loaded / total, which for
total > 0 equals (200 * loaded + total) / (2 * total) in natural division. -/
def roundPct (loaded total : Nat) : Nat :=
  (200 * loaded + total) / (2 * total)

/-- The progress listener of fileUploadHandler: when the event length is
computable, store the rounded per-file percentage under the file name. -/
def progressCallback (s : Uploader) (n : String) (lengthComputable : Bool)
    (loaded total : Nat) : Uploader :=
  if lengthComputable then
    { s with fileProgress := setKey s.fileProgress n (roundPct loaded total) }
  else s

/-- The transport failure message built by the readystatechange listener. -/
def errMsgOf (statusText : String) : String :=
  "An error occurred while uploading the file. Server response: " ++ statusText

/-- The readystatechange listener of fileUploadHandler at readyState 4:
status 200 marks the file Uploaded and sets uploadSuccess, any other status
records the transport failure message under the file name. -/
def readyStateCallback (s : Uploader) (n : String) (status : Nat)
    (statusText : String) : Uploader :=
  if status == 200 then
    { s with fileStatus := setKey s.fileStatus n "Uploaded",
             uploadSuccess := true }
  else
    { s with fileStatus := setKey s.fileStatus n (errMsgOf statusText) }

/-- Events delivered to the component: a file selection, an upload progress
callback, a terminal readystatechange callback, and a reset click. -/
inductive UploadEvent where
  | select (files : List CandidateFile)
  | progress (n : String) (lengthComputable : Bool) (loaded total : Nat)
  | complete (n : String) (status : Nat) (statusText : String)
  | reset
  deriving DecidableEq

/-- One event step of the component. The second component is the list of
transfers dispatched by the step (nonempty only for a valid selection);
resetUploader restores the initial empty state. -/
def step (cfg : FileUploaderProps) (s : Uploader) (e : UploadEvent) :
    Uploader × List CandidateFile :=
  match e with
  | .select files => fileSelectedHandler cfg s files
  | .progress n lc loaded total => (progressCallback s n lc loaded total, [])
  | .complete n status statusText =>
      (readyStateCallback s n status statusText, [])
  | .reset => (initUploader, [])

/-- Event fold from a given state and accumulated dispatch list. -/
def runFrom (cfg : FileUploaderProps) (acc : Uploader × List CandidateFile) :
    List UploadEvent → Uploader × List CandidateFile
  | [] => acc
  | e :: rest =>
      let r := step cfg acc.1 e
      runFrom cfg (r.1, acc.2 ++ r.2) rest

/-- Run of an event trace from the initial state, collecting the final state
and every file for which a transfer was dispatched along the trace. -/
def runEvents (cfg : FileUploaderProps) (evs : List UploadEvent) :
    Uploader × List CandidateFile :=
  runFrom cfg (initUploader, []) evs

/-- Overwriting a key twice keeps only the second value. -/
theorem setKey_setKey {α : Type} (m : List (String × α)) (k : String)
    (v w : α) : setKey (setKey m k v) k w = setKey m k w := by
  induction m with
  | nil => simp [setKey]
  | cons p t ih =>
    by_cases hp : p.1 = k
    · simp [setKey, hp]
    · simp [setKey, hp, ih]

/-- Reading back the key just written yields the written value. -/
theorem lookupKey_setKey_self {α : Type} (m : List (String × α)) (k : String)
    (v : α) : lookupKey (setKey m k v) k = some v := by
  induction m with
  | nil => simp [setKey, lookupKey]
  | cons p t ih =>
    by_cases hp : p.1 = k
    · simp [setKey, lookupKey, hp]
    · simp [setKey, lookupKey, hp, ih]

/-- Writing one key leaves the value of every other key unchanged. -/
theorem lookupKey_setKey_ne {α : Type} (m : List (String × α)) (k q : String)
    (v : α) (h : q ≠ k) : lookupKey (setKey m k v) q = lookupKey m q := by
  induction m with
  | nil => simp [setKey, lookupKey, Ne.symm h]
  | cons p t ih =>
    by_cases hp : p.1 = k
    · simp [setKey, lookupKey, hp, Ne.symm h]
    · simp [setKey, lookupKey, hp, ih]

/-- One validation-loop iteration, characterized by the net per-file message:
a passing file leaves the accumulator untouched, a failing file stores its
net message and forces the flag false. -/
theorem checkFile_eq (cfg : FileUploaderProps)
    (acc : List (String × String) × Bool) (f : CandidateFile) :
    checkFile cfg acc f =
      match fileInvalidMsg cfg f with
      | none => acc
      | some m => (setKey acc.1 f.name m, false) := by
  cases hacc : cfg.acceptedFileTypes with
  | none =>
    by_cases hs : sizeExceeded cfg f <;>
      simp [checkFile, fileInvalidMsg, hacc, hs]
  | some l =>
    by_cases htc : f.type ∈ l <;>
      by_cases hs : sizeExceeded cfg f <;>
        simp [checkFile, fileInvalidMsg, hacc, hs, htc, setKey_setKey]

/-- The isValid flag after the validation loop is the conjunction of the
incoming flag with the validity of every processed file. -/
theorem foldl_checkFile_snd (cfg : FileUploaderProps) :
    ∀ (files : List CandidateFile) (acc : List (String × String) × Bool),
      (files.foldl (checkFile cfg) acc).2 =
        (acc.2 && files.all (fun f => (fileInvalidMsg cfg f).isNone)) := by
  intro files
  induction files with
  | nil => intro acc; simp
  | cons f t ih =>
    intro acc
    rw [List.foldl_cons, ih, checkFile_eq]
    cases hm : fileInvalidMsg cfg f <;> simp [hm, Bool.and_assoc]

/-- The validation loop does not touch fileErrors entries whose key is not
the name of a processed file. -/
theorem foldl_checkFile_lookup_not_mem (cfg : FileUploaderProps) :
    ∀ (files : List CandidateFile) (acc : List (String × String) × Bool)
      (k : String), (∀ f ∈ files, f.name ≠ k) →
      lookupKey (files.foldl (checkFile cfg) acc).1 k = lookupKey acc.1 k := by
  intro files
  induction files with
  | nil => intro acc k _; rfl
  | cons f t ih =>
    intro acc k hk
    rw [List.foldl_cons, ih _ k (fun g hg => hk g (List.mem_cons_of_mem _ hg)),
      checkFile_eq]
    cases hm : fileInvalidMsg cfg f with
    | none => rfl
    | some m =>
      exact lookupKey_setKey_ne _ _ _ _
        (fun h => hk f (List.mem_cons_self _ _) h.symm)

/-- Under unique names, the validation loop leaves exactly the net per-file
message in fileErrors for every invalid file. -/
theorem foldl_checkFile_lookup_mem (cfg : FileUploaderProps) :
    ∀ (files : List CandidateFile) (acc : List (String × String) × Bool)
      (f : CandidateFile) (m : String),
      (files.map CandidateFile.name).Nodup → f ∈ files →
      fileInvalidMsg cfg f = some m →
      lookupKey (files.foldl (checkFile cfg) acc).1 f.name = some m := by
  intro files
  induction files with
  | nil => intro _ _ _ _ hf _; cases hf
  | cons g t ih =>
    intro acc f m hnd hf hm
    rcases List.mem_cons.mp hf with rfl | hf2
    · rw [List.foldl_cons]
      have hnames : ∀ x ∈ t, x.name ≠ f.name := by
        intro x hx hEq
        have h1 : f.name ∉ t.map CandidateFile.name :=
          (List.nodup_cons.mp (by simpa using hnd)).1
        exact h1 (hEq ▸ List.mem_map_of_mem CandidateFile.name hx)
      rw [foldl_checkFile_lookup_not_mem cfg t _ _ hnames, checkFile_eq, hm]
      exact lookupKey_setKey_self _ _ _
    · rw [List.foldl_cons]
      exact ih _ f m (List.nodup_cons.mp (by simpa using hnd)).2 hf2 hm

/-- The dispatch loop of a valid selection touches only fileProgress: the
fileStatus map is unchanged. -/
theorem dispatchFold_fileStatus (files : List CandidateFile) :
    ∀ s : Uploader,
      (files.foldl
        (fun st f => { st with fileProgress := setKey st.fileProgress f.name 0 })
        s).fileStatus = s.fileStatus := by
  induction files with
  | nil => intro s; rfl
  | cons f t ih => intro s; rw [List.foldl_cons, ih]

/-- The dispatch loop of a valid selection leaves uploadSuccess unchanged. -/
theorem dispatchFold_uploadSuccess (files : List CandidateFile) :
    ∀ s : Uploader,
      (files.foldl
        (fun st f => { st with fileProgress := setKey st.fileProgress f.name 0 })
        s).uploadSuccess = s.uploadSuccess := by
  induction files with
  | nil => intro s; rfl
  | cons f t ih => intro s; rw [List.foldl_cons, ih]

/-- The transport failure message is never the literal Uploaded, whatever the
status text, because it starts with a 61-character fixed part. -/
theorem errMsgOf_ne_uploaded (t : String) : errMsgOf t ≠ "Uploaded" := by
  intro h
  have hlen := congrArg String.length h
  rw [errMsgOf, String.length_append] at hlen
  have h61 :
      ("An error occurred while uploading the file. Server response: " :
        String).length = 61 := rfl
  have h8 : ("Uploaded" : String).length = 8 := rfl
  rw [h61, h8] at hlen
  omega

/-- A map holding some value other than Uploaded makes the any-based isError
scan true. -/
theorem any_ne_of_lookupKey (m : List (String × String)) (n v : String)
    (h : lookupKey m n = some v) (hv : v ≠ "Uploaded") :
    m.any (fun p => p.2 != "Uploaded") = true := by
  induction m with
  | nil => simp [lookupKey] at h
  | cons p t ih =>
    rw [lookupKey] at h
    by_cases hp : (p.1 == n) = true
    · rw [if_pos hp] at h
      have hv2 : p.2 = v := Option.some.inj h
      simp [List.any_cons, hv2, hv]
    · rw [if_neg hp] at h
      simp [List.any_cons, ih h]

/-- A selection containing an invalid file makes the isValid flag false. -/
theorem computeFileErrors_invalid (cfg : FileUploaderProps)
    (files : List CandidateFile) (f : CandidateFile) (hf : f ∈ files)
    (hinv : fileInvalidMsg cfg f ≠ none) :
    (computeFileErrors cfg files).2 = false := by
  rw [computeFileErrors, foldl_checkFile_snd]
  have hall : files.all (fun g => (fileInvalidMsg cfg g).isNone) = false := by
    rw [List.all_eq_false]
    exact ⟨f, hf, by simpa [Option.isNone_iff_eq_none] using hinv⟩
  simp [hall]

/-- Shape of the handler result on an invalid batch: uploadError cleared, the
fileErrors map installed as the whole new fileStatus, nothing dispatched. -/
theorem fileSelectedHandler_invalid (cfg : FileUploaderProps) (s : Uploader)
    (files : List CandidateFile)
    (hvalid : (computeFileErrors cfg files).2 = false) :
    fileSelectedHandler cfg s files =
      ({ s with uploadError := none,
                fileStatus := (computeFileErrors cfg files).1 }, []) := by
  simp [fileSelectedHandler, hvalid]

/-- Shape of the handler result on a fully valid batch: uploadError cleared,
fileProgress initialized by the dispatch loop, every file dispatched. -/
theorem fileSelectedHandler_valid (cfg : FileUploaderProps) (s : Uploader)
    (files : List CandidateFile)
    (hvalid : (computeFileErrors cfg files).2 = true) :
    fileSelectedHandler cfg s files =
      (files.foldl
        (fun st f => { st with fileProgress := setKey st.fileProgress f.name 0 })
        { s with uploadError := none }, files) := by
  simp [fileSelectedHandler, hvalid]

/-- An oversized file never passes validation, whatever its type. -/
theorem fileInvalidMsg_isSome_of_size (cfg : FileUploaderProps)
    (f : CandidateFile) (hs : sizeExceeded cfg f = true) :
    fileInvalidMsg cfg f ≠ none := by
  cases hacc : cfg.acceptedFileTypes with
  | none => simp [fileInvalidMsg, hacc, hs]
  | some l => by_cases htc : f.type ∈ l <;> simp [fileInvalidMsg, hacc, hs, htc]

/-- An oversized file that passes the type guard is recorded with the size
message. -/
theorem fileInvalidMsg_size_only (cfg : FileUploaderProps) (f : CandidateFile)
    (hs : sizeExceeded cfg f = true) (ht : typeRejected cfg f = false) :
    fileInvalidMsg cfg f = some (sizeMsg cfg) := by
  cases hacc : cfg.acceptedFileTypes with
  | none => simp [fileInvalidMsg, hacc, hs]
  | some l =>
    have htc : f.type ∈ l := by
      simpa [typeRejected, hacc] using ht
    simp [fileInvalidMsg, hacc, hs, htc]

/-- C1: when a selection contains at least one invalid file, the handler
dispatches no transfer for any file of the selection, and the fileStatus map
holds, for every invalid file, its validation message under the file name
(names are unique within a batch, the stated invariant of the data model). -/
theorem c1_invalid_batch_rejected (cfg : FileUploaderProps) (s : Uploader)
    (files : List CandidateFile)
    (hnd : (files.map CandidateFile.name).Nodup)
    (f0 : CandidateFile) (hf0 : f0 ∈ files)
    (hinv : fileInvalidMsg cfg f0 ≠ none) :
    (fileSelectedHandler cfg s files).2 = [] ∧
      ∀ f ∈ files, ∀ m, fileInvalidMsg cfg f = some m →
        lookupKey (fileSelectedHandler cfg s files).1.fileStatus f.name
          = some m := by
  have hvalid := computeFileErrors_invalid cfg files f0 hf0 hinv
  rw [fileSelectedHandler_invalid cfg s files hvalid]
  refine ⟨rfl, ?_⟩
  intro f hf m hm
  exact foldl_checkFile_lookup_mem cfg files ([], true) f m hnd hf hm

/-- Sample configuration for the C1 witness. -/
def c1cfg : FileUploaderProps :=
  { acceptedFileTypes := some ["image/png"], url := "/api/upload",
    maxFileSize := 1 }

/-- Sample invalid file for the C1 witness. -/
def c1bad : CandidateFile :=
  { name := "bad.gif", size := 10, type := "image/gif" }

/-- Sample mixed selection for the C1 witness. -/
def c1files : List CandidateFile :=
  [{ name := "ok.png", size := 10, type := "image/png" }, c1bad]

/-- Witness for C1 on a concrete mixed selection. -/
theorem c1_invalid_batch_rejected_witness :
    (fileSelectedHandler c1cfg initUploader c1files).2 = [] ∧
      lookupKey (fileSelectedHandler c1cfg initUploader c1files).1.fileStatus
        "bad.gif" = some "File type not accepted. Accepted types: image/png" := by
  have h := c1_invalid_batch_rejected c1cfg initUploader c1files (by decide)
    c1bad (by decide) (by decide)
  exact ⟨h.1, h.2 c1bad (by decide) _ (by decide)⟩

/-- C4 counterexample: with a present-but-empty acceptedTypes list the type
guard runs and rejects every content type (an empty array is truthy in the
source), so the claim that an empty set disables gating is false: a valid-size
png is rejected and nothing is dispatched. -/
theorem c4_empty_types_counterexample :
    typeRejected { acceptedFileTypes := some [], url := "/api/upload" }
        { name := "a.png", size := 10, type := "image/png" } = true ∧
      (fileSelectedHandler { acceptedFileTypes := some [], url := "/api/upload" }
          initUploader
          [{ name := "a.png", size := 10, type := "image/png" }]).2 = [] ∧
      lookupKey (fileSelectedHandler
          { acceptedFileTypes := some [], url := "/api/upload" } initUploader
          [{ name := "a.png", size := 10, type := "image/png" }]).1.fileStatus
        "a.png" = some "File type not accepted. Accepted types: " := by
  decide

/-- C4 amended: an absent acceptedTypes list disables the type gate for every
file, while a present-but-empty list rejects every content type. -/
theorem c4_absent_types_no_gating (cfg cfg2 : FileUploaderProps)
    (f g : CandidateFile) (habs : cfg.acceptedFileTypes = none)
    (hemp : cfg2.acceptedFileTypes = some []) :
    typeRejected cfg f = false ∧ typeRejected cfg2 g = true := by
  constructor
  · simp [typeRejected, habs]
  · simp [typeRejected, hemp]

/-- Witness for the amended C4 at concrete configurations. -/
theorem c4_absent_types_no_gating_witness :
    typeRejected { acceptedFileTypes := none, url := "/api/upload" }
        { name := "a.bin", size := 1, type := "application/zip" } = false ∧
      typeRejected { acceptedFileTypes := some [], url := "/api/upload" }
        { name := "b.png", size := 1, type := "image/png" } = true :=
  c4_absent_types_no_gating _ _ _ _ rfl rfl

/-- Sample configuration for the C7 counterexample. -/
def c7cfg : FileUploaderProps :=
  { acceptedFileTypes := some ["image/png"], url := "/api/upload",
    maxFileSize := 1 }

/-- Sample doubly invalid file for the C7 counterexample. -/
def c7both : CandidateFile :=
  { name := "both.gif", size := 2 * 1024 * 1024, type := "image/gif" }

/-- C7 counterexample: an oversized file that also fails the type check ends
with the type message, not the size message, recorded under its name, so the
claim that an oversized file always records exactly the size message fails. -/
theorem c7_oversize_counterexample :
    sizeExceeded c7cfg c7both = true ∧
      lookupKey (fileSelectedHandler c7cfg initUploader [c7both]).1.fileStatus
        "both.gif" = some (typeMsg ["image/png"]) ∧
      typeMsg ["image/png"] ≠ sizeMsg c7cfg := by
  decide

/-- C7 amended: an oversized file blocks the whole batch, so no transfer is
dispatched for it (or for any sibling); when it passes the type guard its
recorded message is exactly the interpolated size message; and a file whose
size equals the limit passes the size predicate. -/
theorem c7_oversize_rejected (cfg : FileUploaderProps) (s : Uploader)
    (files : List CandidateFile)
    (hnd : (files.map CandidateFile.name).Nodup)
    (f : CandidateFile) (hf : f ∈ files)
    (hsize : sizeExceeded cfg f = true) :
    (fileSelectedHandler cfg s files).2 = [] ∧
      (typeRejected cfg f = false →
        lookupKey (fileSelectedHandler cfg s files).1.fileStatus f.name
          = some (sizeMsg cfg)) ∧
      ∀ g : CandidateFile, g.size = MAX_FILE_BYTES cfg →
        sizeExceeded cfg g = false := by
  have hvalid := computeFileErrors_invalid cfg files f hf
    (fileInvalidMsg_isSome_of_size cfg f hsize)
  rw [fileSelectedHandler_invalid cfg s files hvalid]
  refine ⟨rfl, ?_, ?_⟩
  · intro ht
    exact foldl_checkFile_lookup_mem cfg files ([], true) f (sizeMsg cfg) hnd hf
      (fileInvalidMsg_size_only cfg f hsize ht)
  · intro g hg
    simp [sizeExceeded, hg]

/-- Sample oversized accepted-type file for the C7 witness. -/
def c7wfile : CandidateFile :=
  { name := "big.png", size := 2 * 1024 * 1024, type := "image/png" }

/-- Witness for the amended C7 at a concrete oversized png. -/
theorem c7_oversize_rejected_witness :
    (fileSelectedHandler c7cfg initUploader [c7wfile]).2 = [] ∧
      lookupKey (fileSelectedHandler c7cfg initUploader [c7wfile]).1.fileStatus
        "big.png" = some (sizeMsg c7cfg) ∧
      sizeExceeded c7cfg
        { name := "edge.png", size := MAX_FILE_BYTES c7cfg,
          type := "image/png" } = false := by
  have h := c7_oversize_rejected c7cfg initUploader [c7wfile] (by decide)
    c7wfile (by decide) (by decide)
  exact ⟨h.1, h.2.1 (by decide), h.2.2 _ rfl⟩

/-- C8: with accepted types png and jpeg, a gif file is rejected with nothing
dispatched, and the recorded message is the fixed text followed by exactly
the accepted types joined by a comma and a space. -/
theorem c8_type_gating :
    (fileSelectedHandler
        { acceptedFileTypes := some ["image/png", "image/jpeg"],
          url := "/api/upload" } initUploader
        [{ name := "a.gif", size := 10, type := "image/gif" }]).2 = [] ∧
      lookupKey (fileSelectedHandler
          { acceptedFileTypes := some ["image/png", "image/jpeg"],
            url := "/api/upload" } initUploader
          [{ name := "a.gif", size := 10, type := "image/gif" }]).1.fileStatus
        "a.gif"
        = some "File type not accepted. Accepted types: image/png, image/jpeg" ∧
      typeMsg ["image/png", "image/jpeg"]
        = "File type not accepted. Accepted types: image/png, image/jpeg" := by
  decide

/-- C10: a single selected file failing both the size predicate and the type
guard ends with exactly one fileStatus entry, holding the type message: the
type check overwrites the size entry written moments earlier. -/
theorem c10_type_overwrites_size (cfg : FileUploaderProps) (s : Uploader)
    (f : CandidateFile) (l : List String)
    (hacc : cfg.acceptedFileTypes = some l)
    (hsize : sizeExceeded cfg f = true) (htype : f.type ∉ l) :
    (fileSelectedHandler cfg s [f]).1.fileStatus = [(f.name, typeMsg l)] := by
  have hcfe : computeFileErrors cfg [f] = ([(f.name, typeMsg l)], false) := by
    simp [computeFileErrors, checkFile, hacc, hsize, htype, setKey]
  rw [fileSelectedHandler_invalid cfg s [f] (by rw [hcfe])]
  simp [hcfe]

/-- Witness for C10 at a concrete doubly invalid file. -/
theorem c10_type_overwrites_size_witness :
    (fileSelectedHandler c7cfg initUploader
        [{ name := "dual.gif", size := 2 * 1024 * 1024,
           type := "image/gif" }]).1.fileStatus
      = [("dual.gif", typeMsg ["image/png"])] :=
  c10_type_overwrites_size c7cfg initUploader
    { name := "dual.gif", size := 2 * 1024 * 1024, type := "image/gif" }
    ["image/png"] rfl (by decide) (by decide)

/-- Sample configuration for the C3 trace. -/
def c3cfg : FileUploaderProps :=
  { acceptedFileTypes := none, url := "/api/upload" }

/-- Sample valid file for the C3 trace. -/
def c3file : CandidateFile :=
  { name := "a.png", size := 100, type := "image/png" }

/-- C3: reset does clear the whole state back to the initial empty one, but a
completion callback for a file dispatched before the reset and delivered
after it writes straight into the cleared state: the stale entry reappears in
fileStatus and uploadSuccess flips to true, against the required isolation. -/
theorem c3_late_callback_repopulates :
    (runEvents c3cfg [UploadEvent.select [c3file]]).2 = [c3file] ∧
      (runEvents c3cfg [UploadEvent.select [c3file], UploadEvent.reset]).1
        = initUploader ∧
      lookupKey (runEvents c3cfg [UploadEvent.select [c3file],
          UploadEvent.reset,
          UploadEvent.complete "a.png" 200 "OK"]).1.fileStatus "a.png"
        = some "Uploaded" ∧
      (runEvents c3cfg [UploadEvent.select [c3file], UploadEvent.reset,
          UploadEvent.complete "a.png" 200 "OK"]).1.uploadSuccess = true := by
  decide

/-- C5: uploadSuccess is sticky. A status-200 completion callback sets it;
every event other than reset preserves it once true; the reset step alone
clears it back to false. -/
theorem c5_success_sticky :
    (∀ (s : Uploader) (n t : String),
        (readyStateCallback s n 200 t).uploadSuccess = true) ∧
      (∀ (cfg : FileUploaderProps) (s : Uploader) (e : UploadEvent),
        s.uploadSuccess = true → e ≠ UploadEvent.reset →
        (step cfg s e).1.uploadSuccess = true) ∧
      (∀ (cfg : FileUploaderProps) (s : Uploader),
        (step cfg s UploadEvent.reset).1.uploadSuccess = false) := by
  refine ⟨fun s n t => by simp [readyStateCallback], ?_, fun cfg s => rfl⟩
  intro cfg s e hs hne
  cases e with
  | select files =>
    by_cases hv : (computeFileErrors cfg files).2
    · rw [step, fileSelectedHandler_valid cfg s files hv,
        dispatchFold_uploadSuccess]
      exact hs
    · rw [step, fileSelectedHandler_invalid cfg s files
        (Bool.not_eq_true _ ▸ hv)]
      exact hs
  | progress n lc loaded total =>
    by_cases hlc : lc <;> simp [step, progressCallback, hlc, hs]
  | complete n status t =>
    by_cases h200 : (status == 200) = true <;>
      simp [step, readyStateCallback, h200, hs]
  | reset => exact absurd rfl hne

/-- Witness for C5: a success sets the flag and a later 500 completion for a
sibling file preserves it. -/
theorem c5_success_sticky_witness :
    (readyStateCallback initUploader "a.png" 200 "OK").uploadSuccess = true ∧
      (step c3cfg (readyStateCallback initUploader "a.png" 200 "OK")
          (UploadEvent.complete "b.png" 500 "Internal Server Error")).1.uploadSuccess
        = true :=
  ⟨c5_success_sticky.1 initUploader "a.png" "OK",
   c5_success_sticky.2.1 c3cfg _ _ (by decide) (by decide)⟩

/-- Sample file of 200 bytes for the C6 trace. -/
def c6file : CandidateFile :=
  { name := "a.png", size := 200, type := "image/png" }

/-- C6: a computable progress callback stores the rounded per-file percent
under the file name, and the concrete 50/200, 150/200, 200/200 sequence for a
single dispatched file yields 25, 75, 100 in that order, never decreasing. -/
theorem c6_progress_effect :
    (∀ (s : Uploader) (n : String) (loaded total : Nat), 0 < total →
        lookupKey (progressCallback s n true loaded total).fileProgress n
          = some (roundPct loaded total)) ∧
      (lookupKey (runEvents c3cfg [UploadEvent.select [c6file],
          UploadEvent.progress "a.png" true 50 200]).1.fileProgress "a.png"
          = some 25 ∧
        lookupKey (runEvents c3cfg [UploadEvent.select [c6file],
            UploadEvent.progress "a.png" true 50 200,
            UploadEvent.progress "a.png" true 150 200]).1.fileProgress "a.png"
          = some 75 ∧
        lookupKey (runEvents c3cfg [UploadEvent.select [c6file],
            UploadEvent.progress "a.png" true 50 200,
            UploadEvent.progress "a.png" true 150 200,
            UploadEvent.progress "a.png" true 200 200]).1.fileProgress "a.png"
          = some 100 ∧
        25 ≤ 75 ∧ 75 ≤ 100) := by
  refine ⟨?_, by decide⟩
  intro s n loaded total _
  simp [progressCallback, lookupKey_setKey_self]

/-- Witness for C6: the general progress equation at a concrete event. -/
theorem c6_progress_effect_witness :
    lookupKey (progressCallback initUploader "a.png" true 50 200).fileProgress
      "a.png" = some (roundPct 50 200) :=
  c6_progress_effect.1 initUploader "a.png" 50 200 (by decide)

/-- Sample configuration for the C9 traces: accepted type png, 1 MB limit. -/
def c9cfg : FileUploaderProps :=
  { acceptedFileTypes := some ["image/png"], url := "/api/upload",
    maxFileSize := 1, allowMultiple := true }

/-- First C9 selection: an invalid gif that leaves a Failed entry. -/
def c9sel1 : UploadEvent :=
  .select [{ name := "old.gif", size := 10, type := "image/gif" }]

/-- Second C9 selection: another invalid gif under a different name. -/
def c9sel2 : UploadEvent :=
  .select [{ name := "new.gif", size := 10, type := "image/gif" }]

/-- Third C9 selection: a fully valid png. -/
def c9sel3 : UploadEvent :=
  .select [{ name := "good.png", size := 10, type := "image/png" }]

/-- C9 counterexample: the entry recorded by an earlier invalid selection is
erased by a later invalid selection, because the handler installs the new
fileErrors map as the whole fileStatus; so selectFiles does sometimes clear
previously recorded entries. -/
theorem c9_select_clears_counterexample :
    lookupKey (runEvents c9cfg [c9sel1]).1.fileStatus "old.gif"
        = some (typeMsg ["image/png"]) ∧
      lookupKey (runEvents c9cfg [c9sel1, c9sel2]).1.fileStatus "old.gif"
        = none := by
  decide

/-- C9 amended: a fully valid selection leaves fileStatus untouched, so after
a later valid selection whose file uploads successfully the stale entry
persists and isError stays true; an invalid selection however replaces
fileStatus wholesale with the new validation errors, and reset clears it. -/
theorem c9_valid_select_frame (cfg : FileUploaderProps) (s : Uploader)
    (files : List CandidateFile)
    (hvalid : (computeFileErrors cfg files).2 = true) :
    (fileSelectedHandler cfg s files).1.fileStatus = s.fileStatus ∧
      (lookupKey (runEvents c9cfg
          [c9sel1, c9sel3, UploadEvent.complete "good.png" 200 "OK"]).1.fileStatus
          "old.gif" = some (typeMsg ["image/png"]) ∧
        (runEvents c9cfg
          [c9sel1, c9sel3, UploadEvent.complete "good.png" 200 "OK"]).1.uploadSuccess
          = true ∧
        isError (runEvents c9cfg
          [c9sel1, c9sel3, UploadEvent.complete "good.png" 200 "OK"]).1 = true) := by
  constructor
  · rw [fileSelectedHandler_valid cfg s files hvalid, dispatchFold_fileStatus]
  · decide

/-- Witness for the amended C9 at a concrete valid selection. -/
theorem c9_valid_select_frame_witness :
    (fileSelectedHandler c9cfg initUploader
        [{ name := "good.png", size := 10, type := "image/png" }]).1.fileStatus
      = initUploader.fileStatus ∧
      (lookupKey (runEvents c9cfg
          [c9sel1, c9sel3, UploadEvent.complete "good.png" 200 "OK"]).1.fileStatus
          "old.gif" = some (typeMsg ["image/png"]) ∧
        (runEvents c9cfg
          [c9sel1, c9sel3, UploadEvent.complete "good.png" 200 "OK"]).1.uploadSuccess
          = true ∧
        isError (runEvents c9cfg
          [c9sel1, c9sel3, UploadEvent.complete "good.png" 200 "OK"]).1 = true) :=
  c9_valid_select_frame c9cfg initUploader
    [{ name := "good.png", size := 10, type := "image/png" }] (by decide)

/-- C2: three valid files with distinct names are all dispatched by one
selection; delivering their three terminal callbacks in any of the six
orders, with a 500 for the first file and 200 for the two others, leaves the
first file with the transport failure message, the two others Uploaded,
uploadSuccess true and isError true: one failure alters neither the dispatch
nor the outcome of the sibling files. -/
theorem c2_per_file_independence (cfg : FileUploaderProps)
    (a b c : CandidateFile)
    (hab : a.name ≠ b.name) (hac : a.name ≠ c.name) (hbc : b.name ≠ c.name)
    (hva : fileInvalidMsg cfg a = none) (hvb : fileInvalidMsg cfg b = none)
    (hvc : fileInvalidMsg cfg c = none)
    (ta tb tc : String) (evs : List UploadEvent)
    (horder :
      evs = [.complete a.name 500 ta, .complete b.name 200 tb,
             .complete c.name 200 tc] ∨
      evs = [.complete a.name 500 ta, .complete c.name 200 tc,
             .complete b.name 200 tb] ∨
      evs = [.complete b.name 200 tb, .complete a.name 500 ta,
             .complete c.name 200 tc] ∨
      evs = [.complete b.name 200 tb, .complete c.name 200 tc,
             .complete a.name 500 ta] ∨
      evs = [.complete c.name 200 tc, .complete a.name 500 ta,
             .complete b.name 200 tb] ∨
      evs = [.complete c.name 200 tc, .complete b.name 200 tb,
             .complete a.name 500 ta]) :
    (runEvents cfg (.select [a, b, c] :: evs)).2 = [a, b, c] ∧
      lookupKey (runEvents cfg (.select [a, b, c] :: evs)).1.fileStatus a.name
        = some (errMsgOf ta) ∧
      lookupKey (runEvents cfg (.select [a, b, c] :: evs)).1.fileStatus b.name
        = some "Uploaded" ∧
      lookupKey (runEvents cfg (.select [a, b, c] :: evs)).1.fileStatus c.name
        = some "Uploaded" ∧
      (runEvents cfg (.select [a, b, c] :: evs)).1.uploadSuccess = true ∧
      isError (runEvents cfg (.select [a, b, c] :: evs)).1 = true := by
  have hvalid : (computeFileErrors cfg [a, b, c]).2 = true := by
    rw [computeFileErrors, foldl_checkFile_snd]
    simp [hva, hvb, hvc]
  obtain ⟨S, hS, hstat, hsucc⟩ :
      ∃ S, fileSelectedHandler cfg initUploader [a, b, c] = (S, [a, b, c]) ∧
        S.fileStatus = [] ∧ S.uploadSuccess = false := by
    refine ⟨_, fileSelectedHandler_valid cfg initUploader [a, b, c] hvalid,
      ?_, ?_⟩
    · rw [dispatchFold_fileStatus]; rfl
    · rw [dispatchFold_uploadSuccess]; rfl
  rcases horder with rfl | rfl | rfl | rfl | rfl | rfl <;>
    simp [runEvents, runFrom, step, hS, readyStateCallback, setKey, lookupKey,
      isError, hstat, hsucc, hab, hac, hbc, Ne.symm hab, Ne.symm hac,
      Ne.symm hbc, errMsgOf_ne_uploaded ta]

/-- First sample file for the C2 witness. -/
def c2a : CandidateFile := { name := "a.png", size := 100, type := "image/png" }

/-- Second sample file for the C2 witness. -/
def c2b : CandidateFile := { name := "b.png", size := 100, type := "image/png" }

/-- Third sample file for the C2 witness. -/
def c2c : CandidateFile := { name := "c.png", size := 100, type := "image/png" }

/-- Sample completion order for the C2 witness. -/
def c2evs : List UploadEvent :=
  [.complete "a.png" 500 "Internal Server Error", .complete "b.png" 200 "OK",
   .complete "c.png" 200 "OK"]

/-- Witness for C2 at three concrete valid files and one delivery order. -/
theorem c2_per_file_independence_witness :
    (runEvents c3cfg (UploadEvent.select [c2a, c2b, c2c] :: c2evs)).2
        = [c2a, c2b, c2c] ∧
      lookupKey (runEvents c3cfg
          (UploadEvent.select [c2a, c2b, c2c] :: c2evs)).1.fileStatus "a.png"
        = some (errMsgOf "Internal Server Error") ∧
      lookupKey (runEvents c3cfg
          (UploadEvent.select [c2a, c2b, c2c] :: c2evs)).1.fileStatus "b.png"
        = some "Uploaded" ∧
      lookupKey (runEvents c3cfg
          (UploadEvent.select [c2a, c2b, c2c] :: c2evs)).1.fileStatus "c.png"
        = some "Uploaded" ∧
      (runEvents c3cfg
          (UploadEvent.select [c2a, c2b, c2c] :: c2evs)).1.uploadSuccess = true ∧
      isError (runEvents c3cfg
          (UploadEvent.select [c2a, c2b, c2c] :: c2evs)).1 = true :=
  c2_per_file_independence c3cfg c2a c2b c2c (by decide) (by decide) (by decide)
    (by decide) (by decide) (by decide) "Internal Server Error" "OK" "OK"
    c2evs (Or.inl (by decide))
